import Mathlib

/-!
Shallow embedding of the task-management REST backend
(server/models/Task.js, server/routes/tasks.js, server/routes/users.js).

Conventions of the embedding:
* Object ids are `Nat`; timestamps are `Nat` (milliseconds since epoch).
* A Mongo collection is a `List` of documents; `findById` is `List.find?` on
  the id field.
* A request `:id` parameter is a `ReqId`: `valid n` when the string casts to
  an ObjectId present-or-absent in the store, `malformed` when Mongoose
  throws a `CastError` (`error.kind === 'ObjectId'`) on the cast.
* Route handlers are functions returning an HTTP status code, the JSON
  payload, and the resulting collection state.
* `new RegExp(search, 'i')` applied to a metacharacter-free search string is
  a case-insensitive substring test; it is embedded as `ciContains`.
-/

namespace TaskApp

/-- Task status enum (Task.js lines 15-19): 'pending' | 'in-progress' |
'completed' | 'cancelled', default 'pending'. -/
inductive Status where
  | pending
  | inProgress
  | completed
  | cancelled
deriving DecidableEq, Repr

/-- Task priority enum (Task.js lines 20-24): 'low' | 'medium' | 'high' |
'urgent', default 'medium'. -/
inductive Priority where
  | low
  | medium
  | high
  | urgent
deriving DecidableEq, Repr

/-- A Task document (taskSchema, Task.js lines 3-59). `createdAt` comes from
`timestamps: true`. -/
structure Task where
  id : Nat
  title : String
  description : String
  status : Status
  priority : Priority
  dueDate : Option Nat
  completedAt : Option Nat
  tags : List String
  assignedTo : Option Nat
  createdBy : Nat
  isPublic : Bool
  createdAt : Nat
deriving DecidableEq, Repr

/-- A request `:id` path parameter: either a well-formed ObjectId or a string
that fails the ObjectId cast (Mongoose `CastError`, `error.kind === 'ObjectId'`). -/
inductive ReqId where
  | valid (n : Nat)
  | malformed
deriving DecidableEq, Repr

/-- The lookup `Task.findById` over the embedded collection. -/
def findTask (store : List Task) (i : Nat) : Option Task :=
  store.find? (fun t => t.id == i)

/-- The pre-save middleware (Task.js lines 80-87): when the status path was
modified and the new status is 'completed' and no `completedAt` is present,
stamp it with the current time; when the status path was modified and the new
status is not 'completed', clear it. -/
def preSaveCompletedAt (statusModified : Bool) (now : Nat) (t : Task) : Task :=
  if statusModified && t.status == Status.completed && t.completedAt == none then
    { t with completedAt := some now }
  else if statusModified && !(t.status == Status.completed) then
    { t with completedAt := none }
  else
    t

/-- Result of a task route: HTTP status, the task in the JSON body (if any),
and the collection after the request. -/
structure TaskRouteResult where
  status : Nat
  task : Option Task
  store : List Task
deriving Repr

/-- GET /api/tasks/:id (tasks.js lines 131-156): 404 when the id is absent,
400 when the ObjectId cast fails, 403 when the task is not public and the
requester is neither creator nor assignee, else 200 with the task. -/
def getTaskById (store : List Task) (rid : ReqId) (uid : Nat) : TaskRouteResult :=
  match rid with
  | ReqId.malformed => { status := 400, task := none, store := store }
  | ReqId.valid i =>
    match findTask store i with
    | none => { status := 404, task := none, store := store }
    | some t =>
      if !t.isPublic && !(t.createdBy == uid) &&
          (t.assignedTo == none || !(t.assignedTo == some uid)) then
        { status := 403, task := none, store := store }
      else
        { status := 200, task := some t, store := store }

/-- Replace the document with id `t'.id` by `t'` in the collection
(the persistence effect of `findByIdAndUpdate` / `save` on an existing id). -/
def updateTaskStore (store : List Task) (t' : Task) : List Task :=
  store.map (fun u => if u.id == t'.id then t' else u)

/-- The request body of PUT /api/tasks/:id: each field is present or absent.
Fields whose schema value is itself optional (dueDate, completedAt,
assignedTo) carry the full optional value when present. `createdBy` may be
submitted by the client; the route deletes it (tasks.js line 284). -/
structure TaskUpdates where
  title : Option String
  description : Option String
  status : Option Status
  priority : Option Priority
  dueDate : Option (Option Nat)
  completedAt : Option (Option Nat)
  tags : Option (List String)
  assignedTo : Option (Option Nat)
  isPublic : Option Bool
  createdBy : Option Nat
deriving Repr

/-- The empty PUT body (no field submitted). -/
def TaskUpdates.empty : TaskUpdates :=
  { title := none, description := none, status := none, priority := none,
    dueDate := none, completedAt := none, tags := none, assignedTo := none,
    isPublic := none, createdBy := none }

/-- The effect of `findByIdAndUpdate(id, updates)` (tasks.js lines 286-290):
a `$set` of every submitted field onto the stored document. Update-queries do
NOT run the `pre('save')` middleware of Task.js lines 80-87, so `completedAt`
is written only if the body itself submits it. -/
def applyTaskUpdates (t : Task) (b : TaskUpdates) : Task :=
  { t with
    title := b.title.getD t.title,
    description := b.description.getD t.description,
    status := b.status.getD t.status,
    priority := b.priority.getD t.priority,
    dueDate := b.dueDate.getD t.dueDate,
    completedAt := b.completedAt.getD t.completedAt,
    tags := b.tags.getD t.tags,
    assignedTo := b.assignedTo.getD t.assignedTo,
    isPublic := b.isPublic.getD t.isPublic,
    createdBy := b.createdBy.getD t.createdBy }

/-- PUT /api/tasks/:id (tasks.js lines 230-305): 400 on a malformed id, 404
when absent, 403 unless the requester is the creator; otherwise `createdBy`
is deleted from the body and the rest is applied via `findByIdAndUpdate`. -/
def putTask (store : List Task) (rid : ReqId) (uid : Nat) (b : TaskUpdates) :
    TaskRouteResult :=
  match rid with
  | ReqId.malformed => { status := 400, task := none, store := store }
  | ReqId.valid i =>
    match findTask store i with
    | none => { status := 404, task := none, store := store }
    | some t =>
      if !(t.createdBy == uid) then
        { status := 403, task := none, store := store }
      else
        let b' := { b with createdBy := none }
        let t' := applyTaskUpdates t b'
        { status := 200, task := some t', store := updateTaskStore store t' }

/-- PATCH /api/tasks/:id/status (tasks.js lines 310-361): 400 on a malformed
id, 404 when absent, 403 unless the requester is the creator or the assignee;
otherwise the status is set, `completedAt` is set to now iff the new status
is 'completed' (else cleared), and the document is saved, which runs the
pre-save middleware (the status path counts as modified iff its value
changed). -/
def patchTaskStatus (store : List Task) (rid : ReqId) (uid : Nat)
    (newStatus : Status) (now : Nat) : TaskRouteResult :=
  match rid with
  | ReqId.malformed => { status := 400, task := none, store := store }
  | ReqId.valid i =>
    match findTask store i with
    | none => { status := 404, task := none, store := store }
    | some t =>
      if !(t.createdBy == uid) &&
          (t.assignedTo == none || !(t.assignedTo == some uid)) then
        { status := 403, task := none, store := store }
      else
        let t1 : Task :=
          { t with
            status := newStatus,
            completedAt := if newStatus == Status.completed then some now else none }
        let t2 := preSaveCompletedAt (!(newStatus == t.status)) now t1
        { status := 200, task := some t2, store := updateTaskStore store t2 }

/-- DELETE /api/tasks/:id (tasks.js lines 366-389): 400 on a malformed id,
404 when absent, 403 unless the requester is the creator, else the document
is removed. -/
def deleteTask (store : List Task) (rid : ReqId) (uid : Nat) : TaskRouteResult :=
  match rid with
  | ReqId.malformed => { status := 400, task := none, store := store }
  | ReqId.valid i =>
    match findTask store i with
    | none => { status := 404, task := none, store := store }
    | some t =>
      if !(t.createdBy == uid) then
        { status := 403, task := none, store := store }
      else
        { status := 200, task := none,
          store := store.filter (fun u => !(u.id == i)) }

/-- Prefix test on character lists (helper for the substring test). -/
def prefixMatch : List Char → List Char → Bool
  | [], _ => true
  | _ :: _, [] => false
  | a :: as, b :: bs => a == b && prefixMatch as bs

/-- Whether `needle` occurs as a contiguous run inside the list. -/
def hasSubList (needle : List Char) : List Char → Bool
  | [] => needle.isEmpty
  | c :: cs => prefixMatch needle (c :: cs) || hasSubList needle cs

/-- Case-insensitive substring test: the embedding of testing a field against
`new RegExp(search, 'i')` for a metacharacter-free search string. -/
def ciContains (hay needle : String) : Bool :=
  hasSubList needle.toLower.toList hay.toLower.toList

/-- The `$or` visibility clause shared by GET /api/tasks and
`Task.findByUser` (tasks.js lines 26-31, Task.js lines 91-97): created by the
requester, assigned to the requester, or public. -/
def visibleTo (uid : Nat) (t : Task) : Bool :=
  t.createdBy == uid || t.assignedTo == some uid || t.isPublic

/-- The optional `status` filter (tasks.js line 18, Task.js line 99). -/
def matchesStatus (f : Option Status) (t : Task) : Bool :=
  match f with
  | none => true
  | some s => t.status == s

/-- The optional `priority` filter (tasks.js line 19, Task.js line 100). -/
def matchesPriority (f : Option Priority) (t : Task) : Bool :=
  match f with
  | none => true
  | some p => t.priority == p

/-- The search `$or` clause (tasks.js lines 34-39): title, description, or
some tag matches the case-insensitive search regex. -/
def matchesSearch (s : String) (t : Task) : Bool :=
  ciContains t.title s || ciContains t.description s ||
    t.tags.any (fun tg => ciContains tg s)

/-- The optional search filter: absent search means no restriction. -/
def matchesSearchOpt (f : Option String) (t : Task) : Bool :=
  match f with
  | none => true
  | some s => matchesSearch s t

/-- The set of documents matching the GET /api/tasks query (both branches of
tasks.js lines 24-80 use the same conditions; `countDocuments` is called with
exactly this filter). -/
def listMatches (store : List Task) (uid : Nat) (statusF : Option Status)
    (prioF : Option Priority) (searchF : Option String) : List Task :=
  store.filter (fun t =>
    visibleTo uid t && matchesStatus statusF t && matchesPriority prioF t &&
      matchesSearchOpt searchF t)

/-- Insert into a list sorted descending by `key` (helper for
`.sort({ createdAt: -1 })`). -/
def insertDescBy (key : α → Nat) (x : α) : List α → List α
  | [] => [x]
  | h :: s =>
    if key h ≤ key x then x :: h :: s else h :: insertDescBy key x s

/-- Sort descending by `key` (the embedding of `.sort({ createdAt: -1 })`). -/
def sortDescBy (key : α → Nat) (l : List α) : List α :=
  l.foldr (insertDescBy key) []

/-- The page window `.skip((page - 1) * limit).limit(limit)`. -/
def paginate (l : List α) (page limit : Nat) : List α :=
  (l.drop ((page - 1) * limit)).take limit

/-- The query-parameter parse `parseInt(req.query.x) || d`: an absent or
non-numeric parameter parses to NaN and falls back to the default, and so
does an explicit 0 (falsy). -/
def queryIntOr (d : Nat) : Option Nat → Nat
  | none => d
  | some n => if n == 0 then d else n

/-- The pagination block of a list response:
`{ page, limit, total, pages: Math.ceil(total / limit) }`. -/
structure Pagination where
  page : Nat
  limit : Nat
  total : Nat
  pages : Nat
deriving DecidableEq, Repr

/-- Build the pagination block; `(total + limit - 1) / limit` is
`Math.ceil(total / limit)` on naturals. -/
def mkPagination (page limit total : Nat) : Pagination :=
  { page := page, limit := limit, total := total,
    pages := (total + limit - 1) / limit }

/-- The JSON body of GET /api/tasks: the page of tasks plus pagination. -/
structure TasksListResult where
  tasks : List Task
  pagination : Pagination
deriving Repr

/-- GET /api/tasks (tasks.js lines 11-95): filter by visibility, optional
status/priority, optional search; sort by createdAt descending; paginate;
`total` counts every matching document. -/
def listTasks (store : List Task) (uid : Nat) (statusF : Option Status)
    (prioF : Option Priority) (searchF : Option String)
    (pageQ limitQ : Option Nat) : TasksListResult :=
  let page := queryIntOr 1 pageQ
  let limit := queryIntOr 10 limitQ
  let matched := listMatches store uid statusF prioF searchF
  { tasks := paginate (sortDescBy Task.createdAt matched) page limit,
    pagination := mkPagination page limit matched.length }

/-- GET /api/tasks/public (tasks.js lines 100-126): public tasks only,
sorted by createdAt descending, paginated. -/
def publicTasks (store : List Task) (pageQ limitQ : Option Nat) :
    TasksListResult :=
  let page := queryIntOr 1 pageQ
  let limit := queryIntOr 10 limitQ
  let matched := store.filter (fun t => t.isPublic)
  { tasks := paginate (sortDescBy Task.createdAt matched) page limit,
    pagination := mkPagination page limit matched.length }

/-- Modelled from the spec: the User model file (`server/models/User.js`) is
not among the provided sources. Fields follow §3 of the spec — identity
(unique username, unique email), hashed password, role (`user`|`admin`),
active flag, created timestamp — and the usages in `server/routes/users.js`. -/
structure User where
  id : Nat
  username : String
  email : String
  password : String
  role : String
  isActive : Bool
  createdAt : Nat
deriving DecidableEq, Repr

/-- The lookup `User.findById` over the embedded collection. -/
def findUser (store : List User) (i : Nat) : Option User :=
  store.find? (fun u => u.id == i)

/-- A serialized JSON object, as a field-name/value association list. -/
def JsonObj : Type := List (String × String)

/-- The full document of a user, every schema field included. -/
def userFields (u : User) : JsonObj :=
  [("_id", toString u.id), ("username", u.username), ("email", u.email),
   ("password", u.password), ("role", u.role),
   ("isActive", toString u.isActive), ("createdAt", toString u.createdAt)]

/-- The query projection `.select('-password')` (users.js lines 18, 45, 127,
192): drops the password field from the fetched document. -/
def selectNoPassword (doc : JsonObj) : JsonObj :=
  doc.filter (fun p => !(p.1 == "password"))

/-- Modelled from the spec: `getPublicProfile` is defined in
`server/models/User.js`, which is not among the provided sources. The spec
states "password never serialized to clients", so it returns the user
document's fields without the password. -/
def getPublicProfile (doc : JsonObj) : JsonObj :=
  doc.filter (fun p => !(p.1 == "password"))

/-- The serialization pipeline every user-returning route applies: fetch with
`.select('-password')`, then `user.getPublicProfile()`. -/
def serializeUser (u : User) : JsonObj :=
  getPublicProfile (selectNoPassword (userFields u))

/-- The JSON body of a user list response: serialized users plus pagination. -/
structure UsersListResult where
  users : List JsonObj
  pagination : Pagination

/-- GET /api/users (users.js lines 11-38, admin only): all users, sorted by
createdAt descending, paginated, serialized without password. -/
def listUsers (store : List User) (pageQ limitQ : Option Nat) :
    UsersListResult :=
  let page := queryIntOr 1 pageQ
  let limit := queryIntOr 10 limitQ
  { users := (paginate (sortDescBy User.createdAt store) page limit).map serializeUser,
    pagination := mkPagination page limit store.length }

/-- GET /api/users/search/:query (users.js lines 177-217, admin only): users
whose username or email matches the case-insensitive search regex, sorted by
createdAt descending, paginated, serialized without password. -/
def searchUsers (store : List User) (q : String) (pageQ limitQ : Option Nat) :
    UsersListResult :=
  let page := queryIntOr 1 pageQ
  let limit := queryIntOr 10 limitQ
  let matched := store.filter (fun u => ciContains u.username q || ciContains u.email q)
  { users := (paginate (sortDescBy User.createdAt matched) page limit).map serializeUser,
    pagination := mkPagination page limit matched.length }

/-- Result of a by-id user route: HTTP status, the serialized user in the
JSON body (if any), and the collection after the request. -/
structure UserRouteResult where
  status : Nat
  user : Option JsonObj
  store : List User

/-- GET /api/users/:id (users.js lines 43-64): 400 on a malformed id, 404
when absent, 403 unless the requester is an admin or is fetching their own
profile, else 200 with the serialized user. -/
def getUserById (store : List User) (rid : ReqId) (requester : User) :
    UserRouteResult :=
  match rid with
  | ReqId.malformed => { status := 400, user := none, store := store }
  | ReqId.valid i =>
    match findUser store i with
    | none => { status := 404, user := none, store := store }
    | some u =>
      if !(requester.role == "admin") && !(requester.id == i) then
        { status := 403, user := none, store := store }
      else
        { status := 200, user := some (serializeUser u), store := store }

/-- The request body of PUT /api/users/:id: each updatable field is present
or absent (users.js lines 98-104). -/
structure UserUpdates where
  username : Option String
  email : Option String
  role : Option String
  isActive : Option Bool

/-- The update `$set` applied by `findByIdAndUpdate` in PUT /api/users/:id. -/
def applyUserUpdates (u : User) (b : UserUpdates) : User :=
  { u with
    username := b.username.getD u.username,
    email := b.email.getD u.email,
    role := b.role.getD u.role,
    isActive := b.isActive.getD u.isActive }

/-- The duplicate check of PUT /api/users/:id (users.js lines 107-121): when
a username or email is submitted, some other user (different id) already has
that email or that username. -/
def duplicateUserExists (store : List User) (i : Nat) (b : UserUpdates) : Bool :=
  (b.username.isSome || b.email.isSome) &&
    store.any (fun u =>
      !(u.id == i) &&
        ((match b.email with
          | none => false
          | some e => u.email == e) ||
         (match b.username with
          | none => false
          | some n => u.username == n)))

/-- PUT /api/users/:id (users.js lines 69-144, admin only): 400 when the
submitted username/email collides with another user, 404 when the id is
absent, 400 on a malformed id, else the updates are applied via
`findByIdAndUpdate` and the updated user is returned serialized. -/
def putUser (store : List User) (rid : ReqId) (b : UserUpdates) :
    UserRouteResult :=
  match rid with
  | ReqId.malformed => { status := 400, user := none, store := store }
  | ReqId.valid i =>
    if duplicateUserExists store i b then
      { status := 400, user := none, store := store }
    else
      match findUser store i with
      | none => { status := 404, user := none, store := store }
      | some u =>
        let u' := applyUserUpdates u b
        { status := 200, user := some (serializeUser u'),
          store := store.map (fun v => if v.id == i then u' else v) }

/-- DELETE /api/users/:id (users.js lines 149-172, admin only): 400 on a
malformed id, 404 when absent, 400 when the requesting admin targets their
own id ('Cannot delete your own account'), else the user is removed. -/
def deleteUser (store : List User) (rid : ReqId) (requesterId : Nat) :
    UserRouteResult :=
  match rid with
  | ReqId.malformed => { status := 400, user := none, store := store }
  | ReqId.valid i =>
    match findUser store i with
    | none => { status := 404, user := none, store := store }
    | some _ =>
      if requesterId == i then
        { status := 400, user := none, store := store }
      else
        { status := 200, user := none,
          store := store.filter (fun u => !(u.id == i)) }

/-! Concrete fixtures used by witnesses and counterexamples. -/

/-- Fixture: a completed private task with a completion timestamp, created by
user 1 and assigned to user 2. -/
def taskDone : Task :=
  { id := 1, title := "Ship release", description := "cut the final build",
    status := Status.completed, priority := Priority.high, dueDate := none,
    completedAt := some 50, tags := ["release"], assignedTo := some 2,
    createdBy := 1, isPublic := false, createdAt := 10 }

/-- Fixture: a pending private task with no assignee, created by user 1. -/
def taskOpen : Task :=
  { id := 2, title := "Write docs", description := "user guide",
    status := Status.pending, priority := Priority.medium, dueDate := none,
    completedAt := none, tags := [], assignedTo := none,
    createdBy := 1, isPublic := false, createdAt := 20 }

/-- Fixture: a public task created by user 2. -/
def taskShared : Task :=
  { id := 3, title := "Triage issues", description := "weekly triage",
    status := Status.inProgress, priority := Priority.low, dueDate := none,
    completedAt := none, tags := ["weekly"], assignedTo := none,
    createdBy := 2, isPublic := true, createdAt := 30 }

/-- Fixture: an admin user. -/
def adminUser : User :=
  { id := 1, username := "alice", email := "alice@example.com",
    password := "hashed-a", role := "admin", isActive := true, createdAt := 5 }

/-- Fixture: a regular user. -/
def plainUser : User :=
  { id := 2, username := "bob", email := "bob@example.com",
    password := "hashed-b", role := "user", isActive := true, createdAt := 6 }

/-- Fixture: a user-update body whose username collides with `plainUser`. -/
def dupBodyDemo : UserUpdates :=
  { username := some "bob", email := none, role := none, isActive := none }

/-! Theorems about the claims. -/

/-- C1: the claimed invariant — status set to completed stamps `completedAt`,
any other status clears it — fails on the full update PUT /api/tasks/:id,
because `findByIdAndUpdate` does not run the `pre('save')` middleware. At the
failing input: the creator PUTs status pending onto a completed task whose
`completedAt` is 50, and the returned task still has `completedAt = 50`
instead of none; dually, a PUT of status completed onto a pending task leaves
`completedAt` absent instead of stamping it. -/
theorem putStatusChangeLeavesCompletedAt :
    ((putTask [taskDone] (ReqId.valid 1) 1
        { TaskUpdates.empty with status := some Status.pending }).task.map
      (fun t => (t.status, t.completedAt)) = some (Status.pending, some 50)) ∧
    ((putTask [taskOpen] (ReqId.valid 2) 1
        { TaskUpdates.empty with status := some Status.completed }).task.map
      (fun t => (t.status, t.completedAt)) = some (Status.completed, none)) := by
  constructor <;> rfl

/-- C2: for a stored task, GET /api/tasks/:id answers 403 with no task data
exactly when the task is private and the requester is neither its creator nor
its assignee; a creator, assignee, or anyone on a public task gets the task
back with status 200. -/
theorem getTaskById_access (store : List Task) (i uid : Nat) (t : Task)
    (hfind : findTask store i = some t) :
    (((getTaskById store (ReqId.valid i) uid).status = 403 ∧
        (getTaskById store (ReqId.valid i) uid).task = none) ↔
      (¬ t.isPublic = true ∧ t.createdBy ≠ uid ∧ t.assignedTo ≠ some uid)) ∧
    ((t.isPublic = true ∨ t.createdBy = uid ∨ t.assignedTo = some uid) →
      getTaskById store (ReqId.valid i) uid =
        { status := 200, task := some t, store := store }) := by
  simp only [getTaskById, hfind]
  by_cases hp : t.isPublic <;>
    by_cases hc : t.createdBy = uid <;>
      by_cases ha : t.assignedTo = some uid <;>
        simp [hp, hc, ha]

/-- C2 witness: user 3 is neither creator nor assignee of the private
completed fixture task, and the route indeed answers 403 with no task. -/
theorem getTaskById_access_witness :
    ((getTaskById [taskDone] (ReqId.valid 1) 3).status = 403 ∧
      (getTaskById [taskDone] (ReqId.valid 1) 3).task = none) ↔
    (¬ taskDone.isPublic = true ∧ taskDone.createdBy ≠ 3 ∧
      taskDone.assignedTo ≠ some 3) :=
  (getTaskById_access [taskDone] 1 3 taskDone rfl).1

/-- C3: for a stored task, PUT /api/tasks/:id and DELETE /api/tasks/:id
answer 200 exactly when the requester is the creator and otherwise answer
403 leaving the collection unchanged, while PATCH /api/tasks/:id/status
answers 200 exactly when the requester is the creator or the assignee and
otherwise answers 403 leaving the collection unchanged. -/
theorem taskMutationAuthorization (store : List Task) (i uid now : Nat)
    (t : Task) (b : TaskUpdates) (s : Status)
    (hfind : findTask store i = some t) :
    ((putTask store (ReqId.valid i) uid b).status = 200 ↔ t.createdBy = uid) ∧
    (t.createdBy ≠ uid →
      putTask store (ReqId.valid i) uid b =
        { status := 403, task := none, store := store }) ∧
    ((deleteTask store (ReqId.valid i) uid).status = 200 ↔ t.createdBy = uid) ∧
    (t.createdBy ≠ uid →
      deleteTask store (ReqId.valid i) uid =
        { status := 403, task := none, store := store }) ∧
    ((patchTaskStatus store (ReqId.valid i) uid s now).status = 200 ↔
      (t.createdBy = uid ∨ t.assignedTo = some uid)) ∧
    (¬ (t.createdBy = uid ∨ t.assignedTo = some uid) →
      patchTaskStatus store (ReqId.valid i) uid s now =
        { status := 403, task := none, store := store }) := by
  simp only [putTask, deleteTask, patchTaskStatus, hfind]
  by_cases hc : t.createdBy = uid <;>
    by_cases ha : t.assignedTo = some uid <;>
      simp [hc, ha]

/-- C3 witness: user 2 is the assignee but not the creator of the fixture
task, so the status-only PATCH succeeds for them exactly because the
creator-or-assignee disjunction holds. -/
theorem taskMutationAuthorization_witness :
    (patchTaskStatus [taskDone] (ReqId.valid 1) 2 Status.pending 99).status = 200 ↔
      (taskDone.createdBy = 2 ∨ taskDone.assignedTo = some 2) :=
  (taskMutationAuthorization [taskDone] 1 2 99 taskDone TaskUpdates.empty
    Status.pending rfl).2.2.2.2.1

/-- C4: GET /api/tasks serves a page of exactly the matching documents: its
match set contains a stored task iff the task is created by the requester,
assigned to the requester, or public, and passes the optional status and
priority filters, and — when a search string is given — its title,
description, or some tag contains the search string as a case-insensitive
substring. -/
theorem listTasks_returns_union (store : List Task) (uid : Nat)
    (statusF : Option Status) (prioF : Option Priority)
    (searchF : Option String) (pageQ limitQ : Option Nat) :
    ((listTasks store uid statusF prioF searchF pageQ limitQ).tasks =
      paginate
        (sortDescBy Task.createdAt (listMatches store uid statusF prioF searchF))
        (queryIntOr 1 pageQ) (queryIntOr 10 limitQ)) ∧
    (∀ t, t ∈ listMatches store uid statusF prioF searchF ↔
      (t ∈ store ∧
        (t.createdBy = uid ∨ t.assignedTo = some uid ∨ t.isPublic = true) ∧
        (∀ s, statusF = some s → t.status = s) ∧
        (∀ p, prioF = some p → t.priority = p) ∧
        (∀ q, searchF = some q →
          (ciContains t.title q = true ∨ ciContains t.description q = true ∨
            ∃ tg ∈ t.tags, ciContains tg q = true)))) := by
  refine ⟨rfl, fun t => ?_⟩
  simp only [listMatches, List.mem_filter, visibleTo, matchesStatus,
    matchesPriority, matchesSearchOpt, matchesSearch]
  cases statusF <;> cases prioF <;> cases searchF <;>
    simp [List.any_eq_true, and_assoc, or_assoc]

/-- C5 counterexample: a request to GET /api/tasks/:id with a malformed
identifier is answered 400 (Invalid task ID), not 404 as the claim states. -/
theorem malformedIdAnswers400 :
    (getTaskById [taskDone] ReqId.malformed 1).status = 400 ∧
      ¬ (getTaskById [taskDone] ReqId.malformed 1).status = 404 := by
  constructor <;> simp [getTaskById]

/-- C5 amended: on every by-identifier task and user route, an identifier
absent from the store is answered 404 — except PUT /api/users/:id, which
answers 400 instead whenever the submitted username or email collides with
another existing user, because its duplicate check (users.js lines 107-121)
runs before its existence check (lines 129-131); a malformed identifier (a
failed ObjectId cast) is answered 400. -/
theorem byIdRoutes_notFound (tstore : List Task) (ustore : List User)
    (i uid now : Nat) (requester : User) (b : TaskUpdates) (ub : UserUpdates)
    (s : Status) (ht : findTask tstore i = none)
    (hu : findUser ustore i = none) :
    (getTaskById tstore (ReqId.valid i) uid).status = 404 ∧
    (putTask tstore (ReqId.valid i) uid b).status = 404 ∧
    (patchTaskStatus tstore (ReqId.valid i) uid s now).status = 404 ∧
    (deleteTask tstore (ReqId.valid i) uid).status = 404 ∧
    (getUserById ustore (ReqId.valid i) requester).status = 404 ∧
    (duplicateUserExists ustore i ub = false →
      (putUser ustore (ReqId.valid i) ub).status = 404) ∧
    (duplicateUserExists ustore i ub = true →
      (putUser ustore (ReqId.valid i) ub).status = 400) ∧
    (deleteUser ustore (ReqId.valid i) uid).status = 404 ∧
    (getTaskById tstore ReqId.malformed uid).status = 400 ∧
    (putTask tstore ReqId.malformed uid b).status = 400 ∧
    (patchTaskStatus tstore ReqId.malformed uid s now).status = 400 ∧
    (deleteTask tstore ReqId.malformed uid).status = 400 ∧
    (getUserById ustore ReqId.malformed requester).status = 400 ∧
    (putUser ustore ReqId.malformed ub).status = 400 ∧
    (deleteUser ustore ReqId.malformed uid).status = 400 := by
  refine ⟨?_, ?_, ?_, ?_, ?_, ?_, ?_, ?_, ?_, ?_, ?_, ?_, ?_, ?_, ?_⟩ <;>
    first
    | (simp [getTaskById, putTask, patchTaskStatus, deleteTask, getUserById,
        putUser, deleteUser, ht, hu]
       done)
    | (intro hdup
       simp [putUser, hdup, hu])

/-- C5 amended witness: identifier 7 is absent from both collections, the
by-id routes answer 404, the malformed variants answer 400, and the PUT user
body colliding with the stored user bob makes the absent-id PUT answer 400
via the duplicate branch. -/
theorem byIdRoutes_notFound_witness :
    (getTaskById [] (ReqId.valid 7) 1).status = 404 ∧
    (putTask [] (ReqId.valid 7) 1 TaskUpdates.empty).status = 404 ∧
    (patchTaskStatus [] (ReqId.valid 7) 1 Status.pending 9).status = 404 ∧
    (deleteTask [] (ReqId.valid 7) 1).status = 404 ∧
    (getUserById [plainUser] (ReqId.valid 7) adminUser).status = 404 ∧
    (duplicateUserExists [plainUser] 7 dupBodyDemo = false →
      (putUser [plainUser] (ReqId.valid 7) dupBodyDemo).status = 404) ∧
    (duplicateUserExists [plainUser] 7 dupBodyDemo = true →
      (putUser [plainUser] (ReqId.valid 7) dupBodyDemo).status = 400) ∧
    (deleteUser [plainUser] (ReqId.valid 7) 1).status = 404 ∧
    (getTaskById [] ReqId.malformed 1).status = 400 ∧
    (putTask [] ReqId.malformed 1 TaskUpdates.empty).status = 400 ∧
    (patchTaskStatus [] ReqId.malformed 1 Status.pending 9).status = 400 ∧
    (deleteTask [] ReqId.malformed 1).status = 400 ∧
    (getUserById [plainUser] ReqId.malformed adminUser).status = 400 ∧
    (putUser [plainUser] ReqId.malformed dupBodyDemo).status = 400 ∧
    (deleteUser [plainUser] ReqId.malformed 1).status = 400 :=
  byIdRoutes_notFound [] [plainUser] 7 1 9 adminUser TaskUpdates.empty
    dupBodyDemo Status.pending rfl rfl

/-- Ceiling division characterized: `(a + b - 1) / b` (the natural-number
reading of `Math.ceil(a / b)`) is the least m with `a ≤ m * b`. -/
lemma ceil_div_le_iff (a b m : Nat) (hb : 0 < b) :
    (a + b - 1) / b ≤ m ↔ a ≤ m * b := by
  rw [Nat.div_le_iff_le_mul_add_pred hb, Nat.mul_comm m b]
  omega

/-- The parsed page and limit parameters are always positive. -/
lemma queryIntOr_pos (d : Nat) (h : 0 < d) (q : Option Nat) :
    0 < queryIntOr d q := by
  cases q with
  | none => exact h
  | some n => by_cases hn : n = 0 <;> simp [queryIntOr, hn] <;> omega

/-- Pagination blocks compute the ceiling: `pages ≤ m` iff `total ≤ m * limit`. -/
lemma mkPagination_pages_ceil (page limit total m : Nat) (h : 0 < limit) :
    ((mkPagination page limit total).pages ≤ m ↔ total ≤ m * limit) :=
  ceil_div_le_iff total limit m h

/-- C6: on each list endpoint (task list, public task list, user list, user
search) an omitted page or limit defaults to 1 and 10; `total` counts every
matching document, not only the returned page; and `pages` is the ceiling of
`total / limit` — the least m with `total ≤ m * limit`. -/
theorem paginationContract (tstore : List Task) (ustore : List User)
    (uid : Nat) (statusF : Option Status) (prioF : Option Priority)
    (searchF : Option String) (q : String) (pageQ limitQ : Option Nat)
    (m : Nat) :
    ((listTasks tstore uid statusF prioF searchF none none).pagination.page = 1 ∧
      (listTasks tstore uid statusF prioF searchF none none).pagination.limit = 10) ∧
    ((publicTasks tstore none none).pagination.page = 1 ∧
      (publicTasks tstore none none).pagination.limit = 10) ∧
    ((listUsers ustore none none).pagination.page = 1 ∧
      (listUsers ustore none none).pagination.limit = 10) ∧
    ((searchUsers ustore q none none).pagination.page = 1 ∧
      (searchUsers ustore q none none).pagination.limit = 10) ∧
    ((listTasks tstore uid statusF prioF searchF pageQ limitQ).pagination.total =
      (listMatches tstore uid statusF prioF searchF).length) ∧
    ((publicTasks tstore pageQ limitQ).pagination.total =
      (tstore.filter (fun t => t.isPublic)).length) ∧
    ((listUsers ustore pageQ limitQ).pagination.total = ustore.length) ∧
    ((searchUsers ustore q pageQ limitQ).pagination.total =
      (ustore.filter
        (fun u => ciContains u.username q || ciContains u.email q)).length) ∧
    ((listTasks tstore uid statusF prioF searchF pageQ limitQ).pagination.pages ≤ m ↔
      (listTasks tstore uid statusF prioF searchF pageQ limitQ).pagination.total ≤
        m * (listTasks tstore uid statusF prioF searchF pageQ limitQ).pagination.limit) ∧
    ((publicTasks tstore pageQ limitQ).pagination.pages ≤ m ↔
      (publicTasks tstore pageQ limitQ).pagination.total ≤
        m * (publicTasks tstore pageQ limitQ).pagination.limit) ∧
    ((listUsers ustore pageQ limitQ).pagination.pages ≤ m ↔
      (listUsers ustore pageQ limitQ).pagination.total ≤
        m * (listUsers ustore pageQ limitQ).pagination.limit) ∧
    ((searchUsers ustore q pageQ limitQ).pagination.pages ≤ m ↔
      (searchUsers ustore q pageQ limitQ).pagination.total ≤
        m * (searchUsers ustore q pageQ limitQ).pagination.limit) := by
  have hlim : 0 < queryIntOr 10 limitQ := queryIntOr_pos 10 (by norm_num) limitQ
  refine ⟨⟨rfl, rfl⟩, ⟨rfl, rfl⟩, ⟨rfl, rfl⟩, ⟨rfl, rfl⟩, rfl, rfl, rfl, rfl,
    ?_, ?_, ?_, ?_⟩ <;>
    exact mkPagination_pages_ceil _ _ _ m hlim

/-- The serialization pipeline yields a document with no password key. -/
lemma serializeUser_no_password (u : User) :
    "password" ∉ (serializeUser u).map Prod.fst := by
  simp [serializeUser, getPublicProfile, selectNoPassword, userFields]

/-- C7: no user object serialized by the user list, user get, user update, or
user search endpoint carries a password field. -/
theorem userResponses_no_password (ustore : List User)
    (pageQ limitQ : Option Nat) (rid : ReqId) (requester : User)
    (b : UserUpdates) (q : String) (doc : JsonObj) :
    (doc ∈ (listUsers ustore pageQ limitQ).users →
      "password" ∉ doc.map Prod.fst) ∧
    ((getUserById ustore rid requester).user = some doc →
      "password" ∉ doc.map Prod.fst) ∧
    ((putUser ustore rid b).user = some doc →
      "password" ∉ doc.map Prod.fst) ∧
    (doc ∈ (searchUsers ustore q pageQ limitQ).users →
      "password" ∉ doc.map Prod.fst) := by
  refine ⟨?_, ?_, ?_, ?_⟩
  · intro h
    simp only [listUsers, List.mem_map] at h
    obtain ⟨u, -, rfl⟩ := h
    exact serializeUser_no_password u
  · intro h
    cases rid with
    | malformed => simp [getUserById] at h
    | valid i =>
      cases hf : findUser ustore i with
      | none => simp [getUserById, hf] at h
      | some u =>
        simp only [getUserById, hf] at h
        split at h
        · simp at h
        · rw [Option.some.injEq] at h
          subst h
          exact serializeUser_no_password u
  · intro h
    cases rid with
    | malformed => simp [putUser] at h
    | valid i =>
      by_cases hd : duplicateUserExists ustore i b = true
      · simp [putUser, hd] at h
      · cases hf : findUser ustore i with
        | none =>
          simp [putUser, hd, hf] at h
        | some u =>
          simp only [putUser, Bool.not_eq_true] at h
          rw [if_neg (by simp [hd])] at h
          rw [hf] at h
          rw [Option.some.injEq] at h
          subst h
          exact serializeUser_no_password (applyUserUpdates u b)
  · intro h
    simp only [searchUsers, List.mem_map] at h
    obtain ⟨u, -, rfl⟩ := h
    exact serializeUser_no_password u

/-- Fixture: a PUT body that tries to reassign the creator while also
changing other fields. -/
def putBodyDemo : TaskUpdates :=
  { TaskUpdates.empty with
    createdBy := some 99, title := some "New title",
    status := some Status.inProgress }

/-- C8: a successful PUT /api/tasks/:id never changes `createdBy` — the
route deletes the field from the body before `findByIdAndUpdate` — while the
other submitted fields take the submitted values. -/
theorem putTask_preserves_createdBy (store : List Task) (i uid : Nat)
    (b : TaskUpdates) (t t' : Task)
    (hfind : findTask store i = some t)
    (htask : (putTask store (ReqId.valid i) uid b).task = some t') :
    t'.createdBy = t.createdBy ∧
    t'.title = b.title.getD t.title ∧
    t'.status = b.status.getD t.status ∧
    t'.priority = b.priority.getD t.priority ∧
    t'.isPublic = b.isPublic.getD t.isPublic := by
  simp only [putTask, hfind] at htask
  split at htask
  · simp at htask
  · simp only [Option.some.injEq] at htask
    subst htask
    simp [applyTaskUpdates]

/-- C8 witness: the demo body submits `createdBy = 99`, yet the task the
route returns still has creator 1. -/
theorem putTask_preserves_createdBy_witness :
    (applyTaskUpdates taskDone { putBodyDemo with createdBy := none }).createdBy =
      taskDone.createdBy ∧
    (applyTaskUpdates taskDone { putBodyDemo with createdBy := none }).title =
      putBodyDemo.title.getD taskDone.title ∧
    (applyTaskUpdates taskDone { putBodyDemo with createdBy := none }).status =
      putBodyDemo.status.getD taskDone.status ∧
    (applyTaskUpdates taskDone { putBodyDemo with createdBy := none }).priority =
      putBodyDemo.priority.getD taskDone.priority ∧
    (applyTaskUpdates taskDone { putBodyDemo with createdBy := none }).isPublic =
      putBodyDemo.isPublic.getD taskDone.isPublic :=
  putTask_preserves_createdBy [taskDone] 1 1 putBodyDemo taskDone
    (applyTaskUpdates taskDone { putBodyDemo with createdBy := none }) rfl rfl

/-- C9: DELETE /api/users/:id aimed by an admin at their own id is rejected
with a 400 error and the collection is unchanged (the admin still exists);
aimed at any other stored user it answers 200, the target is gone, and every
other user survives. -/
theorem adminDeleteUser (store : List User) (i admin : Nat) (u : User)
    (hfind : findUser store i = some u) :
    (admin = i →
      deleteUser store (ReqId.valid i) admin =
        { status := 400, user := none, store := store }) ∧
    (admin ≠ i →
      (deleteUser store (ReqId.valid i) admin).status = 200 ∧
      findUser (deleteUser store (ReqId.valid i) admin).store i = none ∧
      ∀ v ∈ store, v.id ≠ i → v ∈ (deleteUser store (ReqId.valid i) admin).store) := by
  constructor
  · intro h
    subst h
    simp [deleteUser, hfind]
  · intro h
    simp only [deleteUser, hfind]
    rw [if_neg (by simpa using h)]
    refine ⟨rfl, ?_, ?_⟩
    · rw [findUser, List.find?_eq_none]
      intro x hx
      simp only [List.mem_filter] at hx
      simpa using hx.2
    · intro v hv hvne
      exact List.mem_filter.2 ⟨hv, by simpa using hvne⟩

/-- C9 witness: the admin (id 1) targeting their own id is answered 400 and
the two-user collection is returned unchanged. -/
theorem adminDeleteUser_witness :
    deleteUser [adminUser, plainUser] (ReqId.valid 1) 1 =
      { status := 400, user := none, store := [adminUser, plainUser] } :=
  (adminDeleteUser [adminUser, plainUser] 1 1 adminUser rfl).1 rfl

/-- C10: for a stored task already completed with a completion timestamp, an
authorized PATCH /api/tasks/:id/status to completed returns the task with
`completedAt` overwritten to the current time (the route assigns it before
saving), while the pre-save middleware alone leaves an already-present
`completedAt` of a completed task untouched, whatever the modified flag and
clock say. -/
theorem patchCompletedOverwritesTimestamp (store : List Task)
    (i uid now now2 t0 : Nat) (sm : Bool) (t : Task)
    (hfind : findTask store i = some t)
    (hstatus : t.status = Status.completed)
    (hca : t.completedAt = some t0)
    (hauth : t.createdBy = uid ∨ t.assignedTo = some uid) :
    ((patchTaskStatus store (ReqId.valid i) uid Status.completed now).task.map
      Task.completedAt = some (some now)) ∧
    preSaveCompletedAt sm now2 t = t := by
  constructor
  · simp only [patchTaskStatus, hfind]
    rw [if_neg (by rcases hauth with h | h <;> simp [h])]
    simp [preSaveCompletedAt, hstatus]
  · simp [preSaveCompletedAt, hstatus, hca]

/-- C10 witness: the assignee (user 2) PATCHes the completed fixture task
(completedAt 50) to completed at time 99 and the response carries
completedAt 99, while the pre-save middleware alone would have preserved the
task unchanged. -/
theorem patchCompletedOverwritesTimestamp_witness :
    ((patchTaskStatus [taskDone] (ReqId.valid 1) 2 Status.completed 99).task.map
      Task.completedAt = some (some 99)) ∧
    preSaveCompletedAt true 77 taskDone = taskDone :=
  patchCompletedOverwritesTimestamp [taskDone] 1 2 99 77 50 true taskDone
    rfl rfl rfl (Or.inr rfl)

end TaskApp
